import Mathlib

/-!
Verification of the mcp-aggregate routing and resilience core.

Shallow embedding of the aggregating MCP proxy: error classification and the
retry wrapper (`executeWithRetry`), the metrics store (`MetricsManager`, in its
two source variants), the health monitor decision logic, and the four list
handlers with their routing tables. Definitions are translated from the
TypeScript source; theorems settle the frozen claims about them.
-/

namespace MCPAgg

/-- JS `String.prototype.includes`: substring containment. -/
def strContains (s pat : String) : Bool :=
  decide (pat.toList <:+: s.toList)

/-- JS truthiness of an optional string field (`undefined`, `null` and `""`
are falsy). -/
def jsTruthy : Option String → Bool
  | none => false
  | some s => !s.isEmpty

/-- JS `a || b` on an optional string: the default is used when the field is
falsy (absent or empty). -/
def jsOrElse (o : Option String) (d : String) : String :=
  match o with
  | none => d
  | some s => if s.isEmpty then d else s

/-! ## Error classification (src/unnamed/part_003, executeWithRetry lines 194-203) -/

/-- The message contains both `Tool` and `not found` (part_003, line 196). -/
def isToolNotFound (msg : String) : Bool :=
  strContains msg "Tool" && strContains msg "not found"

/-- The message contains `Invalid parameters` (part_003, line 197). -/
def isInvalidParams (msg : String) : Bool :=
  strContains msg "Invalid parameters"

/-- The message contains `robots.txt` or `robots` (part_003, line 198). -/
def isRobotsTxtError (msg : String) : Bool :=
  strContains msg "robots.txt" || strContains msg "robots"

/-- `isToolNotFound || isInvalidParams || isRobotsTxtError`. -/
def isBusinessError (msg : String) : Bool :=
  isToolNotFound msg || isInvalidParams msg || isRobotsTxtError msg

/-- Connection-class test of the retry wrapper: the message contains one of
`Connection`, `timeout`, `ECONNREFUSED`, `ENOTFOUND`. -/
def isConnectionError (msg : String) : Bool :=
  strContains msg "Connection" || strContains msg "timeout" ||
  strContains msg "ECONNREFUSED" || strContains msg "ENOTFOUND"

/-! ## The retry wrapper (src/unnamed/part_003, lines 166-247) -/

/-- Result of one attempt of the wrapped operation: the promise resolves with
a value or rejects with an error message. -/
inductive Outcome (α : Type) where
  | ok (v : α)
  | err (msg : String)
deriving DecidableEq, Repr

/-- `HealthMonitor.shouldMarkUnhealthy` (src/unnamed/part_002, lines 536-543):
false when no health-check record exists for the server, otherwise true at
`consecutiveFailures >= 5`. -/
def shouldMarkUnhealthy (hasHealthCheck : Bool) (consecutiveFailures : Nat) : Bool :=
  if !hasHealthCheck then false
  else decide (5 ≤ consecutiveFailures)

/-- Observable outcome of one `executeWithRetry` run: the value returned or
error finally thrown, the final consecutive-failure counter of the client,
every `markServerUnhealthy` call issued (new counter value and message), the
backoff waits performed (ms, in order), each connection-class failure observed
(new counter value and message), and the number of attempts made. -/
structure RetryResult (α : Type) where
  result : Outcome α
  failureCount : Nat
  unhealthyCalls : List (Nat × String)
  waits : List Nat
  connFailures : List (Nat × String)
  attemptsMade : Nat
deriving Repr

/-- Body of the `for (attempt = 0; attempt <= maxRetries; attempt++)` loop of
`executeWithRetry`, as fuel recursion: `fuel` is the number of loop iterations
still allowed (`maxRetries + 1 - attempt`), `fc` the client's current entry in
`failureCounts`. On success the counter resets to 0 and the loop returns; on
failure the error is classified, a connection-class failure increments the
counter and calls `markServerUnhealthy` when `shouldMarkUnhealthy` fires at
the new count; the loop breaks on the last iteration or on a non-connection
error, else waits `2^attempt * 1000` ms and retries. -/
def retryGo (hc : Bool) (att : Nat → Outcome α) :
    Nat → Nat → Nat → Option String → RetryResult α
  | _, 0, fc, lastErr =>
    { result := Outcome.err (lastErr.getD "null"), failureCount := fc,
      unhealthyCalls := [], waits := [], connFailures := [], attemptsMade := 0 }
  | attempt, fuel + 1, fc, _ =>
    match att attempt with
    | Outcome.ok v =>
      { result := Outcome.ok v, failureCount := 0,
        unhealthyCalls := [], waits := [], connFailures := [], attemptsMade := 1 }
    | Outcome.err msg =>
      let conn := isConnectionError msg
      let fc' := if conn then fc + 1 else fc
      let newConn : List (Nat × String) := if conn then [(fc', msg)] else []
      let calls : List (Nat × String) :=
        if conn && shouldMarkUnhealthy hc fc' then [(fc', msg)] else []
      if fuel = 0 then
        { result := Outcome.err msg, failureCount := fc',
          unhealthyCalls := calls, waits := [], connFailures := newConn,
          attemptsMade := 1 }
      else if !conn then
        { result := Outcome.err msg, failureCount := fc',
          unhealthyCalls := calls, waits := [], connFailures := newConn,
          attemptsMade := 1 }
      else
        let rest := retryGo hc att (attempt + 1) fuel fc' (some msg)
        { result := rest.result, failureCount := rest.failureCount,
          unhealthyCalls := calls ++ rest.unhealthyCalls,
          waits := 2 ^ attempt * 1000 :: rest.waits,
          connFailures := newConn ++ rest.connFailures,
          attemptsMade := 1 + rest.attemptsMade }

/-- `executeWithRetry` (src/unnamed/part_003, lines 166-247): run the loop
from attempt 0 with `maxRetries + 1` iterations allowed. `hc` records whether
the health monitor holds a health-check record for this client (consulted by
`shouldMarkUnhealthy`); `fc0` is the client's entry in `failureCounts` on
entry; `att k` is the outcome of the `k`-th attempt of the operation. -/
def executeWithRetry (hc : Bool) (att : Nat → Outcome α) (maxRetries fc0 : Nat) :
    RetryResult α :=
  retryGo hc att 0 (maxRetries + 1) fc0 none

/-- The `maxRetries` argument passed by the tools/call handler
(src/unnamed/part_003, line 473). -/
def toolCallMaxRetries : Nat := 1

/-- The default `maxRetries` used by every other call site
(src/unnamed/part_003, line 171). -/
def defaultMaxRetries : Nat := 2

/-! ## Metrics store (src/unnamed/part_005 and src/src/metrics-manager.ts)

JS numbers are modelled as rationals (`ℚ`) and timestamps as integers (ms).
The one divergence this introduces: where JS division by zero yields
`Infinity`, `ℚ` division by zero yields 0 — this affects only the
`loadFactor` value in corner cases no claim depends on. -/

/-- `MCPServerMetrics` (src/unnamed/part_000). -/
structure MCPServerMetrics where
  serverName : String
  responseTime : ℚ
  successRate : ℚ
  errorCount : Nat
  totalRequests : Nat
  lastUsed : Int
  isHealthy : Bool
  loadFactor : ℚ
  capabilityScore : ℚ
deriving DecidableEq, Repr

/-- `MCPQualityScore` (src/unnamed/part_000); `lastUpdated` omitted. -/
structure MCPQualityScore where
  serverName : String
  overallScore : ℚ
  performanceScore : ℚ
  reliabilityScore : ℚ
  capabilityScore : ℚ
  loadScore : ℚ
deriving DecidableEq, Repr

/-- The private `metrics` map of a `MetricsManager`. -/
def MetricsMap := String → Option MCPServerMetrics

/-- The empty metrics map. -/
def emptyMetrics : MetricsMap := fun _ => none

/-- `Map.set` on the metrics map. -/
def mapSet (ms : MetricsMap) (k : String) (v : MCPServerMetrics) : MetricsMap :=
  fun k2 => if k2 = k then some v else ms k2

/-- The record seeded by `initializeServer`: success rate 1.0, no requests,
healthy, zero load, capability 1.0. -/
def initialMetrics (name : String) (now : Int) : MCPServerMetrics :=
  { serverName := name, responseTime := 0, successRate := 1, errorCount := 0,
    totalRequests := 0, lastUsed := now, isHealthy := true, loadFactor := 0,
    capabilityScore := 1 }

namespace MetricsManager

/-- Per-record update of `MetricsManager.recordRequest`
(src/unnamed/part_005, lines 31-106): increment `totalRequests`; response time
is assigned directly on the first request and otherwise smoothed with
`alpha = 0.3`; `errorCount` increments on failure;
`successRate = 1 - errorCount/totalRequests`; the load factor uses a 60 s
window and a 100-requests-per-minute saturation point, first sample assigned
directly, thereafter weighted 0.7 new / 0.3 old, decaying by 0.9 past the
window; `lastUsed` is set to now. -/
def recordRequestRecord (m : MCPServerMetrics) (responseTime : ℚ)
    (success : Bool) (now : Int) : MCPServerMetrics :=
  let total := m.totalRequests + 1
  let rt : ℚ :=
    if total = 1 then responseTime
    else (3 / 10 : ℚ) * responseTime + (7 / 10 : ℚ) * m.responseTime
  let ec := if success then m.errorCount else m.errorCount + 1
  let sr : ℚ := 1 - (ec : ℚ) / (total : ℚ)
  let lf : ℚ :=
    if total = 0 then 0
    else
      let timeSinceLastRequest : Int := now - m.lastUsed
      if timeSinceLastRequest < 60000 then
        let requestsPerMinute : ℚ :=
          (total : ℚ) / ((timeSinceLastRequest : ℚ) / 60000)
        let newLoadFactor : ℚ := min 1 (requestsPerMinute / 100)
        if total = 1 then newLoadFactor
        else (7 / 10 : ℚ) * newLoadFactor + (3 / 10 : ℚ) * m.loadFactor
      else max 0 (m.loadFactor * (9 / 10 : ℚ))
  { m with totalRequests := total, responseTime := rt, errorCount := ec,
           successRate := sr, loadFactor := lf, lastUsed := now }

/-- `MetricsManager.recordRequest` (src/unnamed/part_005): a missing record is
first seeded by `initializeServer` and then updated with the sample. -/
def recordRequest (ms : MetricsMap) (name : String) (responseTime : ℚ)
    (success : Bool) (now : Int) : MetricsMap :=
  match ms name with
  | none => mapSet ms name (recordRequestRecord (initialMetrics name now) responseTime success now)
  | some m => mapSet ms name (recordRequestRecord m responseTime success now)

/-- `MetricsManager.markServerUnhealthy` (src/unnamed/part_005, lines
108-117): flip only the health bit; the error message is not stored in the
record and `errorCount` is deliberately untouched. -/
def markServerUnhealthy (ms : MetricsMap) (name : String)
    (_errorMessage : Option String) : MetricsMap :=
  match ms name with
  | none => ms
  | some m => mapSet ms name { m with isHealthy := false }

/-- `MetricsManager.markServerHealthy` (src/unnamed/part_005, lines
119-126). -/
def markServerHealthy (ms : MetricsMap) (name : String) : MetricsMap :=
  match ms name with
  | none => ms
  | some m => mapSet ms name { m with isHealthy := true }

/-- `calculatePerformanceScore` (src/unnamed/part_005, lines 166-171). -/
def calculatePerformanceScore (m : MCPServerMetrics) : ℚ :=
  max 0 (1 - m.responseTime / 5000)

/-- `calculateReliabilityScore` (src/unnamed/part_005, lines 173-177). -/
def calculateReliabilityScore (m : MCPServerMetrics) : ℚ :=
  if m.isHealthy then m.successRate else 0

/-- `calculateLoadScore` (src/unnamed/part_005, lines 179-183). -/
def calculateLoadScore (m : MCPServerMetrics) : ℚ :=
  1 - m.loadFactor

/-- `updateQualityScore` (src/unnamed/part_005, lines 137-164): the quality
score derived from a metrics record. -/
def updateQualityScore (m : MCPServerMetrics) : MCPQualityScore :=
  let performanceScore := calculatePerformanceScore m
  let reliabilityScore := calculateReliabilityScore m
  let loadScore := calculateLoadScore m
  { serverName := m.serverName,
    overallScore := performanceScore * (3 / 10) + reliabilityScore * (3 / 10) +
      m.capabilityScore * (2 / 10) + loadScore * (2 / 10),
    performanceScore := performanceScore,
    reliabilityScore := reliabilityScore,
    capabilityScore := m.capabilityScore,
    loadScore := loadScore }

end MetricsManager

namespace MetricsManagerSrc

/-- Per-record update of `MetricsManager.recordRequest` in
src/src/metrics-manager.ts (lines 38-57): EMA with `alpha = 0.1` from the
start; `lastUsed` is set to now *before* the load factor reads the time since
last use, so that gap is always 0. -/
def recordRequestRecord (m : MCPServerMetrics) (responseTime : ℚ)
    (success : Bool) (now : Int) : MCPServerMetrics :=
  let rt : ℚ := (1 / 10 : ℚ) * responseTime + (9 / 10 : ℚ) * m.responseTime
  let total := m.totalRequests + 1
  let ec := if success then m.errorCount else m.errorCount + 1
  let sr : ℚ := 1 - (ec : ℚ) / (total : ℚ)
  let lastUsed : Int := now
  let timeSinceLastRequest : Int := now - lastUsed
  let lf : ℚ := min 1 ((total : ℚ) / max 1 ((timeSinceLastRequest : ℚ) / 1000))
  { m with responseTime := rt, totalRequests := total, errorCount := ec,
           successRate := sr, lastUsed := lastUsed, loadFactor := lf }

/-- `MetricsManager.recordRequest` in src/src/metrics-manager.ts (lines
31-58): when no record exists, `initializeServer` seeds a fresh record and the
method returns — the sample is discarded. -/
def recordRequest (ms : MetricsMap) (name : String) (responseTime : ℚ)
    (success : Bool) (now : Int) : MetricsMap :=
  match ms name with
  | none => mapSet ms name (initialMetrics name now)
  | some m => mapSet ms name (recordRequestRecord m responseTime success now)

end MetricsManagerSrc

/-! ## Health monitor (src/unnamed/part_002, lines 299-556) -/

/-- Connection state of one `ConnectedClient` (src/src/client.ts). -/
structure ConnectedClient where
  name : String
  isConnected : Bool
  lastError : Option String
deriving DecidableEq, Repr

/-- `MCPHealthCheck` (src/unnamed/part_000); `lastCheck` as timestamp. -/
structure MCPHealthCheck where
  serverName : String
  isHealthy : Bool
  lastCheck : Int
  errorMessage : Option String
  responseTime : Option Int
deriving DecidableEq, Repr

/-- The `healthChecks` map of the `HealthMonitor`. -/
def HealthChecks := String → Option MCPHealthCheck

/-- `Map.set` on the health-check map. -/
def hcSet (hs : HealthChecks) (k : String) (v : MCPHealthCheck) : HealthChecks :=
  fun k2 => if k2 = k then some v else hs k2

/-- Decision logic of the periodic `checkServerHealth`
(src/unnamed/part_002, lines 366-412): a disconnected client is unhealthy
with `lastError` (defaulting to `Connection lost`); a connected client named
`Example Server 3` (the configured SSE server) is unhealthy when
`lastError` is truthy; every other connected client is healthy. -/
def checkServerHealthDecision (c : ConnectedClient) : Bool × Option String :=
  if !c.isConnected then (false, some (jsOrElse c.lastError "Connection lost"))
  else if c.name = "Example Server 3" then
    if jsTruthy c.lastError then (false, c.lastError) else (true, none)
  else (true, none)

/-- Decision logic of the manual `triggerHealthCheck`
(src/unnamed/part_002, lines 447-467): solely by `isConnected`. -/
def triggerHealthCheckDecision (c : ConnectedClient) : Bool × Option String :=
  if !c.isConnected then (false, some (jsOrElse c.lastError "Connection lost"))
  else (true, none)

/-- Effect of one periodic `checkServerHealth` run on the health-check map
and the metrics map: write the `MCPHealthCheck` record and call
`markServerHealthy`/`markServerUnhealthy` (src/unnamed/part_002, lines
414-443). -/
def checkServerHealth (hs : HealthChecks) (ms : MetricsMap)
    (c : ConnectedClient) (now rt : Int) : HealthChecks × MetricsMap :=
  let d := checkServerHealthDecision c
  (hcSet hs c.name
    { serverName := c.name, isHealthy := d.1, lastCheck := now,
      errorMessage := d.2, responseTime := some rt },
   if d.1 then MetricsManager.markServerHealthy ms c.name
   else MetricsManager.markServerUnhealthy ms c.name d.2)

/-- Effect of one manual `triggerHealthCheck` run (src/unnamed/part_002,
lines 469-492). -/
def triggerHealthCheck (hs : HealthChecks) (ms : MetricsMap)
    (c : ConnectedClient) (now rt : Int) : HealthChecks × MetricsMap :=
  let d := triggerHealthCheckDecision c
  (hcSet hs c.name
    { serverName := c.name, isHealthy := d.1, lastCheck := now,
      errorMessage := d.2, responseTime := some rt },
   if d.1 then MetricsManager.markServerHealthy ms c.name
   else MetricsManager.markServerUnhealthy ms c.name d.2)

/-! ## Routing tables and the list handlers (src/unnamed/part_003)

Each per-upstream call in a list handler is wrapped in `executeWithRetry`;
the handler's `try`/`catch` observes only the final outcome of that wrapped
call, so the fan-out is parametrised by one `Outcome` per upstream name. -/

/-- One of the three name-to-upstream routing tables (`toolToClientMap`,
`promptToClientMap`, `resourceToClientMap`), mapping an entity name to the
owning client's name. -/
def Table := String → Option String

/-- The cleared routing table. -/
def emptyTable : Table := fun _ => none

/-- `Map.set` on a routing table. -/
def tableSet (t : Table) (k v : String) : Table :=
  fun k2 => if k2 = k then some v else t k2

/-- `Map.delete` on a routing table. -/
def tableDel (t : Table) (k : String) : Table :=
  fun k2 => if k2 = k then none else t k2

/-- A tool descriptor: machine-identifying `name`, human-readable optional
`description`. -/
structure ToolDesc where
  name : String
  description : Option String
deriving DecidableEq, Repr

/-- A prompt descriptor. -/
structure PromptDesc where
  name : String
  description : Option String
deriving DecidableEq, Repr

/-- A resource descriptor: machine-identifying `uri`, human-readable optional
`name`. -/
structure ResourceDesc where
  uri : String
  name : Option String
deriving DecidableEq, Repr

/-- A resource-template descriptor. -/
structure TemplateDesc where
  name : Option String
  description : Option String
deriving DecidableEq, Repr

/-- Namespacing of a tool for display:
`description: [<client>] ${tool.description || ''}` (part_003, line 293). -/
def namespacedTool (client : String) (t : ToolDesc) : ToolDesc :=
  { t with description := some ("[" ++ client ++ "] " ++ jsOrElse t.description "") }

/-- Namespacing of a prompt (part_003, line 677). -/
def namespacedPrompt (client : String) (p : PromptDesc) : PromptDesc :=
  { p with description := some ("[" ++ client ++ "] " ++ jsOrElse p.description "") }

/-- Namespacing of a resource (part_003, line 760): the display `name` is
prefixed, the `uri` passes through unchanged. -/
def namespacedResource (client : String) (r : ResourceDesc) : ResourceDesc :=
  { r with name := some ("[" ++ client ++ "] " ++ jsOrElse r.name "") }

/-- Namespacing of a resource template (part_003, lines 951-955). -/
def namespacedTemplate (client : String) (t : TemplateDesc) : TemplateDesc :=
  { t with
    name := some ("[" ++ client ++ "] " ++ jsOrElse t.name ""),
    description := match t.description with
      | some d => if d.isEmpty then none else some ("[" ++ client ++ "] " ++ d)
      | none => none }

/-- What one upstream contributes to a list fan-out: the namespaced
descriptors pushed to the aggregate result, the machine names registered in
the routing table, the client's connection state afterwards, and whether a
manual health check was triggered for it. -/
structure ClientStep (δ : Type) where
  contrib : List δ
  names : List String
  client : ConnectedClient
  trigger : Bool
deriving Repr

/-- Shared state of the proxy server: the three routing tables and the
connected-clients list. -/
structure ProxyState where
  toolTable : Table
  promptTable : Table
  resourceTable : Table
  clients : List ConnectedClient

/-- Result of one list handler: the updated proxy state, the aggregate
listing, and the names of clients for which a manual health check was
triggered. -/
structure ListResult (δ : Type) where
  state : ProxyState
  listing : List δ
  triggers : List String

/-- Aggregate listing: concatenation of the per-client contributions, in
client order (all-settled fan-in). -/
def listContrib (step : ConnectedClient → ClientStep δ)
    (healthy : List ConnectedClient) : List δ :=
  healthy.foldr (fun c acc => (step c).contrib ++ acc) []

/-- Routing table rebuilt from scratch: starting from the cleared table, each
client's returned names map to that client (last-writer-wins). -/
def listTable (step : ConnectedClient → ClientStep δ)
    (healthy : List ConnectedClient) : Table :=
  healthy.foldl
    (fun t c => (step c).names.foldl (fun t2 n => tableSet t2 n c.name) t)
    emptyTable

/-- Post-state of the clients list: each connected client is replaced by its
per-step client state, disconnected clients are untouched by the fan-out. -/
def listClients (step : ConnectedClient → ClientStep δ)
    (clients : List ConnectedClient) : List ConnectedClient :=
  clients.map (fun c => if c.isConnected then (step c).client else c)

/-- Names of the clients for which a manual health check was triggered. -/
def listTriggers (step : ConnectedClient → ClientStep δ)
    (healthy : List ConnectedClient) : List String :=
  healthy.foldr (fun c acc => if (step c).trigger then c.name :: acc else acc) []

/-- Per-client step of the tools/list handler (part_003, lines 263-327): a
successful call contributes its namespaced tools and registers their names;
on failure the client is demoted (`isConnected := false`, `lastError`
recorded, health check triggered) only when the error is
connection-class. -/
def toolsListStep (oc : String → Outcome (List ToolDesc))
    (c : ConnectedClient) : ClientStep ToolDesc :=
  match oc c.name with
  | Outcome.ok ds =>
    { contrib := ds.map (namespacedTool c.name), names := ds.map ToolDesc.name,
      client := c, trigger := false }
  | Outcome.err m =>
    if isConnectionError m then
      { contrib := [], names := [],
        client := { c with isConnected := false, lastError := some m },
        trigger := true }
    else
      { contrib := [], names := [], client := c, trigger := false }

/-- Per-client step of the prompts/list handler (part_003, lines 645-699):
on failure the client is demoted unconditionally. -/
def promptsListStep (oc : String → Outcome (List PromptDesc))
    (c : ConnectedClient) : ClientStep PromptDesc :=
  match oc c.name with
  | Outcome.ok ds =>
    { contrib := ds.map (namespacedPrompt c.name), names := ds.map PromptDesc.name,
      client := c, trigger := false }
  | Outcome.err m =>
    { contrib := [], names := [],
      client := { c with isConnected := false, lastError := some m },
      trigger := true }

/-- Per-client step of the resources/list handler (part_003, lines 730-782):
on failure the client is demoted unconditionally. -/
def resourcesListStep (oc : String → Outcome (List ResourceDesc))
    (c : ConnectedClient) : ClientStep ResourceDesc :=
  match oc c.name with
  | Outcome.ok ds =>
    { contrib := ds.map (namespacedResource c.name), names := ds.map ResourceDesc.uri,
      client := c, trigger := false }
  | Outcome.err m =>
    { contrib := [], names := [],
      client := { c with isConnected := false, lastError := some m },
      trigger := true }

/-- Per-client step of the resources/templates/list handler (part_003, lines
923-975): the handler registers nothing in any routing table; on failure the
client is demoted unconditionally. -/
def templatesListStep (oc : String → Outcome (List TemplateDesc))
    (c : ConnectedClient) : ClientStep TemplateDesc :=
  match oc c.name with
  | Outcome.ok ds =>
    { contrib := ds.map (namespacedTemplate c.name), names := [],
      client := c, trigger := false }
  | Outcome.err m =>
    { contrib := [], names := [],
      client := { c with isConnected := false, lastError := some m },
      trigger := true }

/-- tools/list handler (part_003, lines 250-351): clear `toolToClientMap`,
fan out over the clients with `isConnected` true, rebuild the table from the
successful responses, and return the aggregate listing (empty when no client
is connected). -/
def toolsList (s : ProxyState) (oc : String → Outcome (List ToolDesc)) :
    ListResult ToolDesc :=
  let healthy := s.clients.filter (fun c => c.isConnected)
  { state :=
      { s with
        toolTable := listTable (toolsListStep oc) healthy,
        clients := listClients (toolsListStep oc) s.clients },
    listing := listContrib (toolsListStep oc) healthy,
    triggers := listTriggers (toolsListStep oc) healthy }

/-- prompts/list handler (part_003, lines 634-716). -/
def promptsList (s : ProxyState) (oc : String → Outcome (List PromptDesc)) :
    ListResult PromptDesc :=
  let healthy := s.clients.filter (fun c => c.isConnected)
  { state :=
      { s with
        promptTable := listTable (promptsListStep oc) healthy,
        clients := listClients (promptsListStep oc) s.clients },
    listing := listContrib (promptsListStep oc) healthy,
    triggers := listTriggers (promptsListStep oc) healthy }

/-- resources/list handler (part_003, lines 719-799). -/
def resourcesList (s : ProxyState) (oc : String → Outcome (List ResourceDesc)) :
    ListResult ResourceDesc :=
  let healthy := s.clients.filter (fun c => c.isConnected)
  { state :=
      { s with
        resourceTable := listTable (resourcesListStep oc) healthy,
        clients := listClients (resourcesListStep oc) s.clients },
    listing := listContrib (resourcesListStep oc) healthy,
    triggers := listTriggers (resourcesListStep oc) healthy }

/-- resources/templates/list handler (part_003, lines 913-992): no routing
table exists for templates, so the proxy's three tables are untouched. -/
def templatesList (s : ProxyState) (oc : String → Outcome (List TemplateDesc)) :
    ListResult TemplateDesc :=
  let healthy := s.clients.filter (fun c => c.isConnected)
  { state := { s with clients := listClients (templatesListStep oc) s.clients },
    listing := listContrib (templatesListStep oc) healthy,
    triggers := listTriggers (templatesListStep oc) healthy }

/-! ## tools/call on a routing-table hit (src/unnamed/part_003, lines 424-514) -/

/-- The error thrown to the caller when the routed upstream reports the tool
missing (part_003, line 491). -/
def notSupportedMsg (toolName server : String) : String :=
  "Tool '" ++ toolName ++ "' is not supported by server " ++ server

/-- The inner operation of the tools/call handler records every attempt in
the metrics store: success `true` on a resolved attempt, `false` on a
rejected one, with the attempt's elapsed time (part_003, lines 453-471). -/
def recordAttempts (ms : MetricsMap) (clientName : String) (times : Nat → ℚ)
    (nows : Nat → Int) (att : Nat → Outcome α) (n : Nat) : MetricsMap :=
  (List.range n).foldl
    (fun acc k =>
      MetricsManager.recordRequest acc clientName (times k)
        (match att k with | Outcome.ok _ => true | Outcome.err _ => false)
        (nows k))
    ms

/-- Result of a tools/call dispatched on a routing-table hit. -/
structure CallToolResult (α : Type) where
  result : Outcome α
  toolTable : Table
  metrics : MetricsMap
  client : ConnectedClient
  failureCount : Nat
  triggeredHealthCheck : Bool

/-- tools/call on a hit: dispatch through `executeWithRetry` with
`maxRetries = 1`, each attempt recorded in the metrics store; on a final
`Tool ... not found` error, evict the name from `toolToClientMap` and raise
the not-supported error without demoting the client; on a final
connection-class error, demote the client and trigger a health check; any
other error is re-raised unchanged (part_003, lines 424-514). The
`markServerUnhealthy` calls made by the retry wrapper are applied after the
per-attempt records. -/
def callToolOnHit (toolName : String) (c : ConnectedClient) (table : Table)
    (ms : MetricsMap) (hc : Bool) (fc0 : Nat) (att : Nat → Outcome α)
    (times : Nat → ℚ) (nows : Nat → Int) : CallToolResult α :=
  let r := executeWithRetry hc att toolCallMaxRetries fc0
  let ms2 := recordAttempts ms c.name times nows att r.attemptsMade
  let ms3 := r.unhealthyCalls.foldl
    (fun acc p => MetricsManager.markServerUnhealthy acc c.name (some p.2)) ms2
  match r.result with
  | Outcome.ok v =>
    { result := Outcome.ok v, toolTable := table, metrics := ms3, client := c,
      failureCount := r.failureCount, triggeredHealthCheck := false }
  | Outcome.err m =>
    if isToolNotFound m then
      { result := Outcome.err (notSupportedMsg toolName c.name),
        toolTable := tableDel table toolName, metrics := ms3, client := c,
        failureCount := r.failureCount, triggeredHealthCheck := false }
    else if isConnectionError m then
      { result := Outcome.err m, toolTable := table, metrics := ms3,
        client := { c with isConnected := false, lastError := some m },
        failureCount := r.failureCount, triggeredHealthCheck := true }
    else
      { result := Outcome.err m, toolTable := table, metrics := ms3, client := c,
        failureCount := r.failureCount, triggeredHealthCheck := false }

/-! ### Unfolding lemmas for `retryGo` -/

section RetryLemmas

variable {α : Type} (hc : Bool) (att : Nat → Outcome α)

lemma retryGo_zero (a fc : Nat) (le : Option String) :
    retryGo hc att a 0 fc le =
      { result := Outcome.err (le.getD "null"), failureCount := fc,
        unhealthyCalls := [], waits := [], connFailures := [], attemptsMade := 0 } :=
  rfl

lemma retryGo_succ_ok {a : Nat} {v : α} (h : att a = Outcome.ok v)
    (f fc : Nat) (le : Option String) :
    retryGo hc att a (f + 1) fc le =
      { result := Outcome.ok v, failureCount := 0,
        unhealthyCalls := [], waits := [], connFailures := [], attemptsMade := 1 } := by
  simp [retryGo, h]

lemma retryGo_succ_err_biz {a : Nat} {m : String} (h : att a = Outcome.err m)
    (hconn : isConnectionError m = false) (f fc : Nat) (le : Option String) :
    retryGo hc att a (f + 1) fc le =
      { result := Outcome.err m, failureCount := fc,
        unhealthyCalls := [], waits := [], connFailures := [], attemptsMade := 1 } := by
  cases f <;> simp [retryGo, h, hconn]

lemma retryGo_succ_err_last {a : Nat} {m : String} (h : att a = Outcome.err m)
    (hconn : isConnectionError m = true) (fc : Nat) (le : Option String) :
    retryGo hc att a 1 fc le =
      { result := Outcome.err m, failureCount := fc + 1,
        unhealthyCalls := if shouldMarkUnhealthy hc (fc + 1) then [(fc + 1, m)] else [],
        waits := [], connFailures := [(fc + 1, m)], attemptsMade := 1 } := by
  simp [retryGo, h, hconn]

lemma retryGo_succ_err_retry {a : Nat} {m : String} (h : att a = Outcome.err m)
    (hconn : isConnectionError m = true) (f fc : Nat) (le : Option String) :
    retryGo hc att a (f + 1 + 1) fc le =
      { result := (retryGo hc att (a + 1) (f + 1) (fc + 1) (some m)).result,
        failureCount := (retryGo hc att (a + 1) (f + 1) (fc + 1) (some m)).failureCount,
        unhealthyCalls :=
          (if shouldMarkUnhealthy hc (fc + 1) then [(fc + 1, m)] else []) ++
            (retryGo hc att (a + 1) (f + 1) (fc + 1) (some m)).unhealthyCalls,
        waits := 2 ^ a * 1000 :: (retryGo hc att (a + 1) (f + 1) (fc + 1) (some m)).waits,
        connFailures :=
          (fc + 1, m) :: (retryGo hc att (a + 1) (f + 1) (fc + 1) (some m)).connFailures,
        attemptsMade := 1 + (retryGo hc att (a + 1) (f + 1) (fc + 1) (some m)).attemptsMade } := by
  simp [retryGo, h, hconn]

/-- The loop makes at most `fuel` attempts. -/
lemma retryGo_attempts_le : ∀ (f a fc : Nat) (le : Option String),
    (retryGo hc att a f fc le).attemptsMade ≤ f := by
  intro f
  induction f with
  | zero => intro a fc le; simp [retryGo_zero]
  | succ f ih =>
    intro a fc le
    cases h : att a with
    | ok v => simp [retryGo_succ_ok hc att h]
    | err m =>
      cases hconn : isConnectionError m with
      | false => simp [retryGo_succ_err_biz hc att h hconn]
      | true =>
        cases f with
        | zero => simp [retryGo_succ_err_last hc att h hconn]
        | succ f' =>
          rw [retryGo_succ_err_retry hc att h hconn]
          have := ih (a + 1) (fc + 1) (some m)
          simp only []
          omega

/-- With at least one unit of fuel the loop makes at least one attempt. -/
lemma retryGo_attempts_pos : ∀ (f a fc : Nat) (le : Option String),
    1 ≤ (retryGo hc att a (f + 1) fc le).attemptsMade := by
  intro f a fc le
  cases h : att a with
  | ok v => simp [retryGo_succ_ok hc att h]
  | err m =>
    cases hconn : isConnectionError m with
    | false => simp [retryGo_succ_err_biz hc att h hconn]
    | true =>
      cases f with
      | zero => simp [retryGo_succ_err_last hc att h hconn]
      | succ f' =>
        rw [retryGo_succ_err_retry hc att h hconn]
        simp only []
        omega

/-- Every attempt before the last one failed with a connection-class error:
only connection-class failures are retried. -/
lemma retryGo_mid_conn : ∀ (f a fc : Nat) (le : Option String) (k : Nat),
    k + 1 < (retryGo hc att a f fc le).attemptsMade →
    ∃ m, att (a + k) = Outcome.err m ∧ isConnectionError m = true := by
  intro f
  induction f with
  | zero => intro a fc le k hk; simp [retryGo_zero] at hk
  | succ f ih =>
    intro a fc le k hk
    cases h : att a with
    | ok v => simp [retryGo_succ_ok hc att h] at hk
    | err m =>
      cases hconn : isConnectionError m with
      | false => simp [retryGo_succ_err_biz hc att h hconn] at hk
      | true =>
        cases f with
        | zero => simp [retryGo_succ_err_last hc att h hconn] at hk
        | succ f' =>
          rw [retryGo_succ_err_retry hc att h hconn] at hk
          simp only [] at hk
          cases k with
          | zero => exact ⟨m, by simpa using h, hconn⟩
          | succ k' =>
            have hk' : k' + 1 < (retryGo hc att (a + 1) (f' + 1) (fc + 1)
                (some m)).attemptsMade := by omega
            have := ih (a + 1) (fc + 1) (some m) k' hk'
            obtain ⟨m', hm', hc'⟩ := this
            exact ⟨m', by simpa [Nat.add_assoc, Nat.add_comm 1 k'] using hm', hc'⟩

/-- If the loop made `k + 1` attempts and attempt `k` failed, the error thrown
is exactly that failure's error (the original error is re-raised). -/
lemma retryGo_last_err : ∀ (f a fc : Nat) (le : Option String) (k : Nat) (m : String),
    (retryGo hc att a f fc le).attemptsMade = k + 1 →
    att (a + k) = Outcome.err m →
    (retryGo hc att a f fc le).result = Outcome.err m := by
  intro f
  induction f with
  | zero => intro a fc le k m hk _; simp [retryGo_zero] at hk
  | succ f ih =>
    intro a fc le k m hk hm
    cases h : att a with
    | ok v =>
      rw [retryGo_succ_ok hc att h] at hk ⊢
      simp at hk
      subst hk
      simp at hm
      rw [h] at hm
      exact absurd hm (by simp)
    | err m' =>
      cases hconn : isConnectionError m' with
      | false =>
        rw [retryGo_succ_err_biz hc att h hconn] at hk ⊢
        have hk0 : k = 0 := by simpa using hk.symm
        subst hk0
        simp only [Nat.add_zero] at hm
        rw [h] at hm
        injection hm with hme
        simp [hme]
      | true =>
        cases f with
        | zero =>
          rw [retryGo_succ_err_last hc att h hconn] at hk ⊢
          have hk0 : k = 0 := by simpa using hk.symm
          subst hk0
          simp only [Nat.add_zero] at hm
          rw [h] at hm
          injection hm with hme
          simp [hme]
        | succ f' =>
          rw [retryGo_succ_err_retry hc att h hconn] at hk ⊢
          dsimp only at hk ⊢
          cases k with
          | zero =>
            have hpos := retryGo_attempts_pos hc att f' (a + 1) (fc + 1) (some m')
            omega
          | succ k' =>
            have hk' : (retryGo hc att (a + 1) (f' + 1) (fc + 1)
                (some m')).attemptsMade = k' + 1 := by omega
            exact ih (a + 1) (fc + 1) (some m') k' m hk'
              (by simpa [Nat.add_assoc, Nat.add_comm 1 k'] using hm)

/-- A success resets the client's consecutive-failure counter to 0. -/
lemma retryGo_ok_fc : ∀ (f a fc : Nat) (le : Option String) (v : α),
    (retryGo hc att a f fc le).result = Outcome.ok v →
    (retryGo hc att a f fc le).failureCount = 0 := by
  intro f
  induction f with
  | zero => intro a fc le v hv; simp [retryGo_zero] at hv
  | succ f ih =>
    intro a fc le v hv
    cases h : att a with
    | ok w => simp [retryGo_succ_ok hc att h]
    | err m =>
      cases hconn : isConnectionError m with
      | false =>
        rw [retryGo_succ_err_biz hc att h hconn] at hv
        simp at hv
      | true =>
        cases f with
        | zero =>
          rw [retryGo_succ_err_last hc att h hconn] at hv
          simp at hv
        | succ f' =>
          rw [retryGo_succ_err_retry hc att h hconn] at hv ⊢
          dsimp only at hv ⊢
          exact ih (a + 1) (fc + 1) (some m) v hv

/-- When the run ends in an error, the final consecutive-failure counter is the
initial one plus exactly one increment per connection-class failure observed:
business-class failures never increment it. -/
lemma retryGo_err_fc : ∀ (f a fc : Nat) (le : Option String) (m : String),
    (retryGo hc att a (f + 1) fc le).result = Outcome.err m →
    (retryGo hc att a (f + 1) fc le).failureCount =
      fc + (retryGo hc att a (f + 1) fc le).connFailures.length := by
  intro f
  induction f with
  | zero =>
    intro a fc le m hv
    cases h : att a with
    | ok w => rw [retryGo_succ_ok hc att h] at hv; simp at hv
    | err m' =>
      cases hconn : isConnectionError m' with
      | false => simp [retryGo_succ_err_biz hc att h hconn]
      | true => simp [retryGo_succ_err_last hc att h hconn]
  | succ f ih =>
    intro a fc le m hv
    cases h : att a with
    | ok w => rw [retryGo_succ_ok hc att h] at hv; simp at hv
    | err m' =>
      cases hconn : isConnectionError m' with
      | false => simp [retryGo_succ_err_biz hc att h hconn]
      | true =>
        rw [retryGo_succ_err_retry hc att h hconn] at hv ⊢
        dsimp only at hv ⊢
        have := ih (a + 1) (fc + 1) (some m') m hv
        simp only [List.length_cons]
        omega

/-- Every connection-class failure entry is indeed connection-class. -/
lemma retryGo_conn_class : ∀ (f a fc : Nat) (le : Option String)
    (p : Nat × String), p ∈ (retryGo hc att a f fc le).connFailures →
    isConnectionError p.2 = true := by
  intro f
  induction f with
  | zero => intro a fc le p hp; simp [retryGo_zero] at hp
  | succ f ih =>
    intro a fc le p hp
    cases h : att a with
    | ok w => rw [retryGo_succ_ok hc att h] at hp; simp at hp
    | err m =>
      cases hconn : isConnectionError m with
      | false => rw [retryGo_succ_err_biz hc att h hconn] at hp; simp at hp
      | true =>
        cases f with
        | zero =>
          rw [retryGo_succ_err_last hc att h hconn] at hp
          simp at hp
          simp [hp, hconn]
        | succ f' =>
          rw [retryGo_succ_err_retry hc att h hconn] at hp
          dsimp only at hp
          rcases List.mem_cons.mp hp with hp0 | hp1
          · rw [hp0]; exact hconn
          · exact ih (a + 1) (fc + 1) (some m) p hp1

/-- The counter values recorded at the connection-class failures are the
successive increments of the initial counter. -/
lemma retryGo_conn_counts : ∀ (f a fc : Nat) (le : Option String),
    (retryGo hc att a f fc le).connFailures.map Prod.fst =
      (List.range (retryGo hc att a f fc le).connFailures.length).map
        (fun i => fc + i + 1) := by
  intro f
  induction f with
  | zero => intro a fc le; simp [retryGo_zero]
  | succ f ih =>
    intro a fc le
    cases h : att a with
    | ok w => simp [retryGo_succ_ok hc att h]
    | err m =>
      cases hconn : isConnectionError m with
      | false => simp [retryGo_succ_err_biz hc att h hconn]
      | true =>
        cases f with
        | zero =>
          rw [retryGo_succ_err_last hc att h hconn]
          simp [List.range_succ]
        | succ f' =>
          rw [retryGo_succ_err_retry hc att h hconn]
          dsimp only
          rw [List.map_cons, List.length_cons, ih (a + 1) (fc + 1) (some m)]
          rw [List.range_succ_eq_map, List.map_cons, List.map_map]
          refine congrArg₂ List.cons (by omega) ?_
          refine List.map_congr_left ?_
          intro i _
          simp only [Function.comp_apply]
          omega

/-- The backoff waits are `2^attempt * 1000` ms, one before each retry. -/
lemma retryGo_waits : ∀ (f a fc : Nat) (le : Option String),
    (retryGo hc att a f fc le).waits =
      (List.range ((retryGo hc att a f fc le).attemptsMade - 1)).map
        (fun i => 2 ^ (a + i) * 1000) := by
  intro f
  induction f with
  | zero => intro a fc le; simp [retryGo_zero]
  | succ f ih =>
    intro a fc le
    cases h : att a with
    | ok w => simp [retryGo_succ_ok hc att h]
    | err m =>
      cases hconn : isConnectionError m with
      | false => simp [retryGo_succ_err_biz hc att h hconn]
      | true =>
        cases f with
        | zero => simp [retryGo_succ_err_last hc att h hconn]
        | succ f' =>
          rw [retryGo_succ_err_retry hc att h hconn]
          dsimp only
          rw [ih (a + 1) (fc + 1) (some m)]
          have hpos := retryGo_attempts_pos hc att f' (a + 1) (fc + 1) (some m)
          have h1 : 1 + (retryGo hc att (a + 1) (f' + 1) (fc + 1)
              (some m)).attemptsMade - 1 =
              ((retryGo hc att (a + 1) (f' + 1) (fc + 1)
                (some m)).attemptsMade - 1) + 1 := by omega
          rw [h1, List.range_succ_eq_map, List.map_cons, List.map_map]
          refine congrArg₂ List.cons (by simp) ?_
          refine List.map_congr_left ?_
          intro i _
          simp only [Function.comp_apply]
          have h2 : a + 1 + i = a + (i + 1) := by omega
          rw [h2]

/-- With a health-check record present, `markServerUnhealthy` is invoked
exactly at the connection-class failures whose new counter value is at
least 5. -/
lemma retryGo_unhealthy_filter : ∀ (f a fc : Nat) (le : Option String),
    (retryGo true att a f fc le).unhealthyCalls =
      (retryGo true att a f fc le).connFailures.filter
        (fun p => decide (5 ≤ p.1)) := by
  intro f
  induction f with
  | zero => intro a fc le; simp [retryGo_zero]
  | succ f ih =>
    intro a fc le
    cases h : att a with
    | ok w => simp [retryGo_succ_ok true att h]
    | err m =>
      cases hconn : isConnectionError m with
      | false => simp [retryGo_succ_err_biz true att h hconn]
      | true =>
        cases f with
        | zero =>
          rw [retryGo_succ_err_last true att h hconn]
          by_cases h5 : 4 ≤ fc <;> simp [shouldMarkUnhealthy, List.filter, h5]
        | succ f' =>
          rw [retryGo_succ_err_retry true att h hconn]
          dsimp only
          rw [ih (a + 1) (fc + 1) (some m)]
          by_cases h5 : 4 ≤ fc <;>
            simp [shouldMarkUnhealthy, List.filter_cons, h5]

/-- If a health-check record is absent, `shouldMarkUnhealthy` never fires and
no `markServerUnhealthy` call is made. -/
lemma retryGo_unhealthy_none : ∀ (f a fc : Nat) (le : Option String),
    (retryGo false att a f fc le).unhealthyCalls = [] := by
  intro f
  induction f with
  | zero => intro a fc le; simp [retryGo_zero]
  | succ f ih =>
    intro a fc le
    cases h : att a with
    | ok w => simp [retryGo_succ_ok false att h]
    | err m =>
      cases hconn : isConnectionError m with
      | false => simp [retryGo_succ_err_biz false att h hconn]
      | true =>
        cases f with
        | zero =>
          rw [retryGo_succ_err_last false att h hconn]
          simp [shouldMarkUnhealthy]
        | succ f' =>
          rw [retryGo_succ_err_retry false att h hconn]
          dsimp only
          rw [ih (a + 1) (fc + 1) (some m)]
          simp [shouldMarkUnhealthy]

end RetryLemmas

/-! ## Claims C1 and C2: the retry wrapper -/

/-- C1: in the retry wrapper every failed attempt's error is classified by
substring match: connection-class exactly when the message contains one of
`Connection`, `timeout`, `ECONNREFUSED`, `ENOTFOUND`, business-class otherwise
(in particular `Tool ... not found`, `Invalid parameters`, `robots.txt`
messages are business-class); the wrapper makes at most `maxRetries + 1`
attempts (`maxRetries` is 1 for tool calls and 2 for all other operations);
only connection-class failures are retried (every non-final attempt failed
with a connection-class error); and a business-class failure ends the attempt
loop immediately with the original error re-raised. -/
theorem claim_C1 {α : Type} (hc : Bool) (att : Nat → Outcome α)
    (maxRetries fc0 : Nat) :
    (∀ msg, isConnectionError msg = true ↔
      ("Connection".toList <:+: msg.toList ∨ "timeout".toList <:+: msg.toList ∨
       "ECONNREFUSED".toList <:+: msg.toList ∨ "ENOTFOUND".toList <:+: msg.toList))
    ∧ isConnectionError "Tool t1 not found" = false
    ∧ isConnectionError "Invalid parameters" = false
    ∧ isConnectionError "robots.txt disallowed" = false
    ∧ toolCallMaxRetries = 1
    ∧ defaultMaxRetries = 2
    ∧ (executeWithRetry hc att maxRetries fc0).attemptsMade ≤ maxRetries + 1
    ∧ (∀ k, k + 1 < (executeWithRetry hc att maxRetries fc0).attemptsMade →
        ∃ m, att k = Outcome.err m ∧ isConnectionError m = true)
    ∧ (∀ k m, k < (executeWithRetry hc att maxRetries fc0).attemptsMade →
        att k = Outcome.err m → isConnectionError m = false →
        (executeWithRetry hc att maxRetries fc0).attemptsMade = k + 1 ∧
        (executeWithRetry hc att maxRetries fc0).result = Outcome.err m) := by
  refine ⟨?_, by decide, by decide, by decide, rfl, rfl, ?_, ?_, ?_⟩
  · intro msg
    simp [isConnectionError, strContains, Bool.or_eq_true, decide_eq_true_eq,
      or_assoc]
  · simpa [executeWithRetry] using
      retryGo_attempts_le hc att (maxRetries + 1) 0 fc0 none
  · intro k hk
    simpa using retryGo_mid_conn hc att (maxRetries + 1) 0 fc0 none k hk
  · intro k m hk hatt hconn
    have hle : (executeWithRetry hc att maxRetries fc0).attemptsMade ≤ k + 1 := by
      by_contra hgt
      push_neg at hgt
      obtain ⟨m', hm', hc'⟩ :=
        retryGo_mid_conn hc att (maxRetries + 1) 0 fc0 none k (by simpa using hgt)
      rw [Nat.zero_add, hatt] at hm'
      injection hm' with hme
      rw [← hme] at hc'
      rw [hconn] at hc'
      exact Bool.false_ne_true hc'
    have ham : (executeWithRetry hc att maxRetries fc0).attemptsMade = k + 1 := by
      omega
    exact ⟨ham, retryGo_last_err hc att (maxRetries + 1) 0 fc0 none k m ham
      (by simpa using hatt)⟩

/-- Witness for C1 at a concrete input: a business-class failure
(`Invalid parameters`) on the first attempt ends the loop after exactly one
attempt with the original error re-raised. -/
theorem claim_C1_witness :
    (executeWithRetry true (fun _ => (Outcome.err "Invalid parameters" : Outcome Nat))
        2 0).attemptsMade = 1 ∧
    (executeWithRetry true (fun _ => (Outcome.err "Invalid parameters" : Outcome Nat))
        2 0).result = Outcome.err "Invalid parameters" := by
  have h := claim_C1 true
    (fun _ => (Outcome.err "Invalid parameters" : Outcome Nat)) 2 0
  exact h.2.2.2.2.2.2.2.2 0 "Invalid parameters" (by decide) rfl (by decide)

/-- C2: with a health-check record present for the upstream, across one run of
the retry wrapper only connection-class failures increment the upstream's
consecutive-failure counter (a final error leaves the counter at the initial
value plus one per connection-class failure, each recorded count being the
successive increments), a success resets the counter to 0, the wrapper waits
`2^attempt * 1000` ms before each retry, and `markServerUnhealthy` is invoked
on the metrics store exactly at the connection-class failures whose new
consecutive-failure count is at least 5; business-class errors never increment
the counter and never demote health. -/
theorem claim_C2 {α : Type} (att : Nat → Outcome α) (maxRetries fc0 : Nat) :
    (∀ v, (executeWithRetry true att maxRetries fc0).result = Outcome.ok v →
      (executeWithRetry true att maxRetries fc0).failureCount = 0)
    ∧ (∀ m, (executeWithRetry true att maxRetries fc0).result = Outcome.err m →
        (executeWithRetry true att maxRetries fc0).failureCount =
          fc0 + (executeWithRetry true att maxRetries fc0).connFailures.length)
    ∧ (∀ p ∈ (executeWithRetry true att maxRetries fc0).connFailures,
        isConnectionError p.2 = true)
    ∧ (executeWithRetry true att maxRetries fc0).connFailures.map Prod.fst =
        (List.range (executeWithRetry true att maxRetries fc0).connFailures.length).map
          (fun i => fc0 + i + 1)
    ∧ (executeWithRetry true att maxRetries fc0).waits =
        (List.range ((executeWithRetry true att maxRetries fc0).attemptsMade - 1)).map
          (fun i => 2 ^ i * 1000)
    ∧ (executeWithRetry true att maxRetries fc0).unhealthyCalls =
        (executeWithRetry true att maxRetries fc0).connFailures.filter
          (fun p => decide (5 ≤ p.1)) := by
  refine ⟨?_, ?_, ?_, ?_, ?_, ?_⟩
  · intro v hv
    exact retryGo_ok_fc true att (maxRetries + 1) 0 fc0 none v hv
  · intro m hm
    exact retryGo_err_fc true att maxRetries 0 fc0 none m hm
  · intro p hp
    exact retryGo_conn_class true att (maxRetries + 1) 0 fc0 none p hp
  · exact retryGo_conn_counts true att (maxRetries + 1) 0 fc0 none
  · simpa using retryGo_waits true att (maxRetries + 1) 0 fc0 none
  · exact retryGo_unhealthy_filter att (maxRetries + 1) 0 fc0 none

/-- Witness for C2 at a concrete input: two consecutive connection-class
failures (`Connection lost`) starting from a counter of 3 leave the counter at
5, with `markServerUnhealthy` invoked exactly once, at count 5. -/
theorem claim_C2_witness :
    (executeWithRetry true (fun _ => (Outcome.err "Connection lost" : Outcome Nat))
        1 3).failureCount =
      3 + (executeWithRetry true
        (fun _ => (Outcome.err "Connection lost" : Outcome Nat)) 1 3).connFailures.length := by
  have h := claim_C2 (fun _ => (Outcome.err "Connection lost" : Outcome Nat)) 1 3
  exact h.2.1 "Connection lost" (by decide)

/-! ## Claims C3 and C4: the list handlers and their routing tables -/

/-- Inserting a list of names for one client: the resulting table is populated
at a key iff the base table was or the key is among the inserted names. -/
lemma insertNames_isSome (cn : String) : ∀ (names : List String) (t : Table)
    (n : String),
    ((names.foldl (fun t2 n2 => tableSet t2 n2 cn) t) n).isSome = true ↔
      (t n).isSome = true ∨ n ∈ names := by
  intro names
  induction names with
  | nil => intro t n; simp
  | cons n2 rest ih =>
    intro t n
    simp only [List.foldl_cons, List.mem_cons]
    rw [ih]
    by_cases hn : n = n2
    · subst hn
      simp [tableSet]
    · simp [tableSet, hn]

/-- The rebuilt routing table is populated at a key iff some fanned-out client
registered that key. -/
lemma listTable_isSome {δ : Type} (step : ConnectedClient → ClientStep δ) :
    ∀ (healthy : List ConnectedClient) (n : String),
    ((listTable step healthy) n).isSome = true ↔
      ∃ c ∈ healthy, n ∈ (step c).names := by
  have main : ∀ (l : List ConnectedClient) (t : Table) (n : String),
      ((l.foldl
        (fun t c => (step c).names.foldl (fun t2 n2 => tableSet t2 n2 c.name) t)
        t) n).isSome = true ↔
        (t n).isSome = true ∨ ∃ c ∈ l, n ∈ (step c).names := by
    intro l
    induction l with
    | nil => intro t n; simp
    | cons c rest ih =>
      intro t n
      simp only [List.foldl_cons]
      rw [ih, insertNames_isSome]
      simp only [List.mem_cons]
      constructor
      · rintro ((h | h) | ⟨c', hc', hn⟩)
        · exact Or.inl h
        · exact Or.inr ⟨c, Or.inl rfl, h⟩
        · exact Or.inr ⟨c', Or.inr hc', hn⟩
      · rintro (h | ⟨c', (rfl | hc'), hn⟩)
        · exact Or.inl (Or.inl h)
        · exact Or.inl (Or.inr hn)
        · exact Or.inr ⟨c', hc', hn⟩
  intro healthy n
  rw [listTable, main]
  simp [emptyTable]

/-- The names registered by the tools/list step are exactly the tool names of
a successful response. -/
lemma toolsListStep_names (oc : String → Outcome (List ToolDesc))
    (c : ConnectedClient) (n : String) :
    n ∈ (toolsListStep oc c).names ↔
      ∃ ds, oc c.name = Outcome.ok ds ∧ n ∈ ds.map ToolDesc.name := by
  cases h : oc c.name with
  | ok ds => simp [toolsListStep, h]
  | err m =>
    by_cases hconn : isConnectionError m <;> simp [toolsListStep, h, hconn]

/-- The names registered by the prompts/list step. -/
lemma promptsListStep_names (oc : String → Outcome (List PromptDesc))
    (c : ConnectedClient) (n : String) :
    n ∈ (promptsListStep oc c).names ↔
      ∃ ds, oc c.name = Outcome.ok ds ∧ n ∈ ds.map PromptDesc.name := by
  cases h : oc c.name with
  | ok ds => simp [promptsListStep, h]
  | err m => simp [promptsListStep, h]

/-- The uris registered by the resources/list step. -/
lemma resourcesListStep_names (oc : String → Outcome (List ResourceDesc))
    (c : ConnectedClient) (n : String) :
    n ∈ (resourcesListStep oc c).names ↔
      ∃ ds, oc c.name = Outcome.ok ds ∧ n ∈ ds.map ResourceDesc.uri := by
  cases h : oc c.name with
  | ok ds => simp [resourcesListStep, h]
  | err m => simp [resourcesListStep, h]

/-- C3 counterexample: the claim includes the resources/templates/list
operation, but that handler maintains no routing table at all. With one
connected upstream `A` whose templates call succeeds with a template named
`tmpl`, the listing is non-empty, yet after the call none of the proxy's
routing tables contains `tmpl` — so no "corresponding routing table contains
exactly the names returned by the upstreams that succeeded". -/
theorem claim_C3_counterexample :
    (templatesList
      { toolTable := emptyTable, promptTable := emptyTable,
        resourceTable := emptyTable,
        clients := [{ name := "A", isConnected := true, lastError := none }] }
      (fun _ => Outcome.ok [{ name := some "tmpl", description := none }])).listing ≠ []
    ∧ (templatesList
      { toolTable := emptyTable, promptTable := emptyTable,
        resourceTable := emptyTable,
        clients := [{ name := "A", isConnected := true, lastError := none }] }
      (fun _ => Outcome.ok [{ name := some "tmpl", description := none }])).state.toolTable
        "tmpl" = none
    ∧ (templatesList
      { toolTable := emptyTable, promptTable := emptyTable,
        resourceTable := emptyTable,
        clients := [{ name := "A", isConnected := true, lastError := none }] }
      (fun _ => Outcome.ok [{ name := some "tmpl", description := none }])).state.promptTable
        "tmpl" = none
    ∧ (templatesList
      { toolTable := emptyTable, promptTable := emptyTable,
        resourceTable := emptyTable,
        clients := [{ name := "A", isConnected := true, lastError := none }] }
      (fun _ => Outcome.ok [{ name := some "tmpl", description := none }])).state.resourceTable
        "tmpl" = none := by
  refine ⟨?_, rfl, rfl, rfl⟩
  decide

/-- C3 (amended): for the three list operations that have a routing table
(tools, prompts, resources), the table is rebuilt from scratch on each call
and afterwards is populated exactly at the names returned by the upstreams
whose call succeeded; the other routing tables are untouched; the fan-out runs
over exactly the clients with `isConnected` true, with all-settled semantics
(the aggregate listing is the concatenation of per-client contributions, a
failed upstream contributing nothing), and an empty listing — not an error —
results when no client is connected. The resources/templates/list handler has
the same fan-out behaviour but maintains no routing table: all three tables
are untouched. -/
theorem claim_C3_amended (s : ProxyState)
    (ocT : String → Outcome (List ToolDesc))
    (ocP : String → Outcome (List PromptDesc))
    (ocR : String → Outcome (List ResourceDesc))
    (ocM : String → Outcome (List TemplateDesc)) :
    (∀ n, (((toolsList s ocT).state.toolTable n).isSome = true ↔
      ∃ c ∈ s.clients.filter (fun c => c.isConnected),
        ∃ ds, ocT c.name = Outcome.ok ds ∧ n ∈ ds.map ToolDesc.name))
    ∧ (toolsList s ocT).state.promptTable = s.promptTable
    ∧ (toolsList s ocT).state.resourceTable = s.resourceTable
    ∧ (toolsList s ocT).listing =
        listContrib (toolsListStep ocT) (s.clients.filter (fun c => c.isConnected))
    ∧ (∀ c m, ocT c.name = Outcome.err m → (toolsListStep ocT c).contrib = [])
    ∧ (∀ c ds, ocT c.name = Outcome.ok ds →
        (toolsListStep ocT c).contrib = ds.map (namespacedTool c.name))
    ∧ (s.clients.filter (fun c => c.isConnected) = [] → (toolsList s ocT).listing = [])
    ∧ (∀ n, (((promptsList s ocP).state.promptTable n).isSome = true ↔
        ∃ c ∈ s.clients.filter (fun c => c.isConnected),
          ∃ ds, ocP c.name = Outcome.ok ds ∧ n ∈ ds.map PromptDesc.name))
    ∧ (promptsList s ocP).state.toolTable = s.toolTable
    ∧ (promptsList s ocP).state.resourceTable = s.resourceTable
    ∧ (promptsList s ocP).listing =
        listContrib (promptsListStep ocP) (s.clients.filter (fun c => c.isConnected))
    ∧ (∀ c m, ocP c.name = Outcome.err m → (promptsListStep ocP c).contrib = [])
    ∧ (∀ c ds, ocP c.name = Outcome.ok ds →
        (promptsListStep ocP c).contrib = ds.map (namespacedPrompt c.name))
    ∧ (s.clients.filter (fun c => c.isConnected) = [] → (promptsList s ocP).listing = [])
    ∧ (∀ n, (((resourcesList s ocR).state.resourceTable n).isSome = true ↔
        ∃ c ∈ s.clients.filter (fun c => c.isConnected),
          ∃ ds, ocR c.name = Outcome.ok ds ∧ n ∈ ds.map ResourceDesc.uri))
    ∧ (resourcesList s ocR).state.toolTable = s.toolTable
    ∧ (resourcesList s ocR).state.promptTable = s.promptTable
    ∧ (resourcesList s ocR).listing =
        listContrib (resourcesListStep ocR) (s.clients.filter (fun c => c.isConnected))
    ∧ (∀ c m, ocR c.name = Outcome.err m → (resourcesListStep ocR c).contrib = [])
    ∧ (∀ c ds, ocR c.name = Outcome.ok ds →
        (resourcesListStep ocR c).contrib = ds.map (namespacedResource c.name))
    ∧ (s.clients.filter (fun c => c.isConnected) = [] → (resourcesList s ocR).listing = [])
    ∧ (templatesList s ocM).state.toolTable = s.toolTable
    ∧ (templatesList s ocM).state.promptTable = s.promptTable
    ∧ (templatesList s ocM).state.resourceTable = s.resourceTable
    ∧ (templatesList s ocM).listing =
        listContrib (templatesListStep ocM) (s.clients.filter (fun c => c.isConnected))
    ∧ (∀ c m, ocM c.name = Outcome.err m → (templatesListStep ocM c).contrib = [])
    ∧ (∀ c ds, ocM c.name = Outcome.ok ds →
        (templatesListStep ocM c).contrib = ds.map (namespacedTemplate c.name))
    ∧ (s.clients.filter (fun c => c.isConnected) = [] →
        (templatesList s ocM).listing = []) := by
  refine ⟨?_, rfl, rfl, rfl, ?_, ?_, ?_, ?_, rfl, rfl, rfl, ?_, ?_, ?_, ?_, rfl,
    rfl, rfl, ?_, ?_, ?_, rfl, rfl, rfl, rfl, ?_, ?_, ?_⟩
  · intro n
    rw [show (toolsList s ocT).state.toolTable =
        listTable (toolsListStep ocT) (s.clients.filter (fun c => c.isConnected))
      from rfl]
    rw [listTable_isSome]
    exact exists_congr fun c => and_congr_right fun _ => toolsListStep_names ocT c n
  · intro c m h
    by_cases hconn : isConnectionError m <;> simp [toolsListStep, h, hconn]
  · intro c ds h
    simp [toolsListStep, h]
  · intro hempty
    simp [toolsList, hempty, listContrib]
  · intro n
    rw [show (promptsList s ocP).state.promptTable =
        listTable (promptsListStep ocP) (s.clients.filter (fun c => c.isConnected))
      from rfl]
    rw [listTable_isSome]
    exact exists_congr fun c => and_congr_right fun _ => promptsListStep_names ocP c n
  · intro c m h
    simp [promptsListStep, h]
  · intro c ds h
    simp [promptsListStep, h]
  · intro hempty
    simp [promptsList, hempty, listContrib]
  · intro n
    rw [show (resourcesList s ocR).state.resourceTable =
        listTable (resourcesListStep ocR) (s.clients.filter (fun c => c.isConnected))
      from rfl]
    rw [listTable_isSome]
    exact exists_congr fun c => and_congr_right fun _ => resourcesListStep_names ocR c n
  · intro c m h
    simp [resourcesListStep, h]
  · intro c ds h
    simp [resourcesListStep, h]
  · intro hempty
    simp [resourcesList, hempty, listContrib]
  · intro c m h
    simp [templatesListStep, h]
  · intro c ds h
    simp [templatesListStep, h]
  · intro hempty
    simp [templatesList, hempty, listContrib]

/-- Witness for C3 at a concrete input: with a single disconnected client the
tools/list handler returns an empty listing rather than an error. -/
theorem claim_C3_witness :
    (toolsList
      { toolTable := emptyTable, promptTable := emptyTable,
        resourceTable := emptyTable,
        clients := [{ name := "A", isConnected := false, lastError := none }] }
      (fun _ => Outcome.ok [])).listing = [] := by
  have h := claim_C3_amended
    { toolTable := emptyTable, promptTable := emptyTable,
      resourceTable := emptyTable,
      clients := [{ name := "A", isConnected := false, lastError := none }] }
    (fun _ => Outcome.ok []) (fun _ => Outcome.ok []) (fun _ => Outcome.ok [])
    (fun _ => Outcome.ok [])
  exact h.2.2.2.2.2.2.1 (by decide)

/-- C4 counterexample: the claim asserts that in all four list handlers a
business-class error leaves `isConnected` and `lastError` unchanged, but only
the tools/list handler classifies errors. In the prompts/list handler a
business-class `Invalid parameters` failure demotes the upstream: the
connected client `A` comes out with `isConnected = false` and the error
recorded in `lastError`. -/
theorem claim_C4_counterexample :
    isConnectionError "Invalid parameters" = false
    ∧ isBusinessError "Invalid parameters" = true
    ∧ (promptsList
      { toolTable := emptyTable, promptTable := emptyTable,
        resourceTable := emptyTable,
        clients := [{ name := "A", isConnected := true, lastError := none }] }
      (fun _ => Outcome.err "Invalid parameters")).state.clients =
        [{ name := "A", isConnected := false,
           lastError := some "Invalid parameters" }] := by
  refine ⟨by decide, by decide, ?_⟩
  decide

/-- C4 (amended): in the tools/list handler a per-upstream failure demotes the
upstream (sets `isConnected := false`, records `lastError`, triggers a manual
health check) if and only if the error is connection-class, a business-class
error leaving the client untouched; in the prompts/list, resources/list and
resources/templates/list handlers every per-upstream failure demotes the
upstream and triggers a health check, regardless of its class. -/
theorem claim_C4_amended (c : ConnectedClient) (m : String)
    (ocT : String → Outcome (List ToolDesc))
    (ocP : String → Outcome (List PromptDesc))
    (ocR : String → Outcome (List ResourceDesc))
    (ocM : String → Outcome (List TemplateDesc)) :
    (ocT c.name = Outcome.err m → isConnectionError m = true →
      (toolsListStep ocT c).client.isConnected = false
      ∧ (toolsListStep ocT c).client.lastError = some m
      ∧ (toolsListStep ocT c).trigger = true)
    ∧ (ocT c.name = Outcome.err m → isConnectionError m = false →
        (toolsListStep ocT c).client = c ∧ (toolsListStep ocT c).trigger = false)
    ∧ (ocP c.name = Outcome.err m →
        (promptsListStep ocP c).client.isConnected = false
        ∧ (promptsListStep ocP c).client.lastError = some m
        ∧ (promptsListStep ocP c).trigger = true)
    ∧ (ocR c.name = Outcome.err m →
        (resourcesListStep ocR c).client.isConnected = false
        ∧ (resourcesListStep ocR c).client.lastError = some m
        ∧ (resourcesListStep ocR c).trigger = true)
    ∧ (ocM c.name = Outcome.err m →
        (templatesListStep ocM c).client.isConnected = false
        ∧ (templatesListStep ocM c).client.lastError = some m
        ∧ (templatesListStep ocM c).trigger = true) := by
  refine ⟨?_, ?_, ?_, ?_, ?_⟩
  · intro h hconn
    simp [toolsListStep, h, hconn]
  · intro h hconn
    simp [toolsListStep, h, hconn]
  · intro h
    simp [promptsListStep, h]
  · intro h
    simp [resourcesListStep, h]
  · intro h
    simp [templatesListStep, h]

/-- Witness for C4 at a concrete input: a connection-class failure
(`ECONNREFUSED`) in the tools/list handler demotes the upstream and triggers a
manual health check. -/
theorem claim_C4_witness :
    (toolsListStep (fun _ => Outcome.err "ECONNREFUSED")
      { name := "A", isConnected := true, lastError := none }).client.isConnected = false
    ∧ (toolsListStep (fun _ => Outcome.err "ECONNREFUSED")
      { name := "A", isConnected := true, lastError := none }).client.lastError =
        some "ECONNREFUSED"
    ∧ (toolsListStep (fun _ => Outcome.err "ECONNREFUSED")
      { name := "A", isConnected := true, lastError := none }).trigger = true := by
  have h := claim_C4_amended
    { name := "A", isConnected := true, lastError := none } "ECONNREFUSED"
    (fun _ => Outcome.err "ECONNREFUSED") (fun _ => Outcome.ok [])
    (fun _ => Outcome.ok []) (fun _ => Outcome.ok [])
  exact h.1 rfl (by decide)

/-! ## Claim C5: tools/call with a `Tool ... not found` upstream error -/

/-- C5: when the routed upstream fails the first attempt with a
`Tool ... not found` (business-class) error, the tools/call handler evicts the
tool's name from the routing table (other entries untouched), raises the
not-supported error to the caller, leaves the client undemoted (`isConnected`,
`lastError` and the metrics health bit unchanged) with no health-check
trigger, increments the upstream's `errorCount` and `totalRequests` by exactly
one (the dispatched request is recorded as a failure), and leaves the
consecutive-failure counter at 0. -/
theorem claim_C5 {α : Type} (toolName : String) (c : ConnectedClient)
    (table : Table) (ms : MetricsMap) (hcb : Bool) (att : Nat → Outcome α)
    (times : Nat → ℚ) (nows : Nat → Int) (m : MCPServerMetrics) (em : String)
    (h0 : att 0 = Outcome.err em)
    (htool : isToolNotFound em = true)
    (hconn : isConnectionError em = false)
    (hm : ms c.name = some m) :
    (callToolOnHit toolName c table ms hcb 0 att times nows).result =
      Outcome.err (notSupportedMsg toolName c.name)
    ∧ (callToolOnHit toolName c table ms hcb 0 att times nows).toolTable
        toolName = none
    ∧ (∀ n, n ≠ toolName →
        (callToolOnHit toolName c table ms hcb 0 att times nows).toolTable n =
          table n)
    ∧ (callToolOnHit toolName c table ms hcb 0 att times nows).client = c
    ∧ (callToolOnHit toolName c table ms hcb 0 att times nows).triggeredHealthCheck
        = false
    ∧ (callToolOnHit toolName c table ms hcb 0 att times nows).failureCount = 0
    ∧ (∃ m', (callToolOnHit toolName c table ms hcb 0 att times nows).metrics
          c.name = some m'
        ∧ m'.errorCount = m.errorCount + 1
        ∧ m'.totalRequests = m.totalRequests + 1
        ∧ m'.isHealthy = m.isHealthy) := by
  have hr : executeWithRetry hcb att toolCallMaxRetries 0 =
      { result := Outcome.err em, failureCount := 0, unhealthyCalls := [],
        waits := [], connFailures := [], attemptsMade := 1 } := by
    simpa [executeWithRetry, toolCallMaxRetries] using
      retryGo_succ_err_biz hcb att h0 hconn 1 0 none
  have hrec : recordAttempts ms c.name times nows att 1 =
      mapSet ms c.name
        (MetricsManager.recordRequestRecord m (times 0) false (nows 0)) := by
    simp [recordAttempts, List.range_succ, List.range_zero, h0,
      MetricsManager.recordRequest, hm]
  have hcall : callToolOnHit toolName c table ms hcb 0 att times nows =
      { result := Outcome.err (notSupportedMsg toolName c.name),
        toolTable := tableDel table toolName,
        metrics := mapSet ms c.name
          (MetricsManager.recordRequestRecord m (times 0) false (nows 0)),
        client := c, failureCount := 0, triggeredHealthCheck := false } := by
    simp only [callToolOnHit, hr, hrec, List.foldl_nil, htool, if_true]
  rw [hcall]
  refine ⟨rfl, ?_, ?_, rfl, rfl, rfl, ?_⟩
  · simp [tableDel]
  · intro n hn
    simp [tableDel, hn]
  · refine ⟨MetricsManager.recordRequestRecord m (times 0) false (nows 0),
      by simp [mapSet], ?_, ?_, ?_⟩
    · simp [MetricsManager.recordRequestRecord]
    · simp [MetricsManager.recordRequestRecord]
    · simp [MetricsManager.recordRequestRecord]

/-- Witness for C5 at a concrete input: tool `t1` routed to upstream `A`,
which replies `Tool t1 not found`; additionally, the error raised to the
caller is itself business-class for these names. -/
theorem claim_C5_witness :
    (callToolOnHit "t1" { name := "A", isConnected := true, lastError := none }
      (tableSet emptyTable "t1" "A")
      (mapSet emptyMetrics "A" (initialMetrics "A" 0)) true 0
      (fun _ => (Outcome.err "Tool t1 not found" : Outcome Unit))
      (fun _ => 5) (fun _ => 1000)).result =
        Outcome.err (notSupportedMsg "t1" "A")
    ∧ (callToolOnHit "t1" { name := "A", isConnected := true, lastError := none }
      (tableSet emptyTable "t1" "A")
      (mapSet emptyMetrics "A" (initialMetrics "A" 0)) true 0
      (fun _ => (Outcome.err "Tool t1 not found" : Outcome Unit))
      (fun _ => 5) (fun _ => 1000)).toolTable "t1" = none
    ∧ isConnectionError (notSupportedMsg "t1" "A") = false := by
  have h := claim_C5 "t1" { name := "A", isConnected := true, lastError := none }
    (tableSet emptyTable "t1" "A")
    (mapSet emptyMetrics "A" (initialMetrics "A" 0)) true
    (fun _ => (Outcome.err "Tool t1 not found" : Outcome Unit))
    (fun _ => 5) (fun _ => 1000) (initialMetrics "A" 0) "Tool t1 not found"
    rfl (by decide) (by decide) (by decide)
  exact ⟨h.1, h.2.1, by decide⟩

/-! ## Claims C6, C7, C8: the metrics store -/

/-- C6: for an upstream with an existing record, `recordRequest` (in both
source variants) increments `totalRequests` by exactly 1, increments
`errorCount` by exactly 1 on failure and leaves it unchanged on success, and
afterwards `errorCount ≤ totalRequests` and
`successRate = 1 - errorCount/totalRequests`. -/
theorem claim_C6 (ms : MetricsMap) (name : String) (m : MCPServerMetrics)
    (responseTime : ℚ) (success : Bool) (now : Int)
    (hm : ms name = some m) (hinv : m.errorCount ≤ m.totalRequests) :
    MetricsManager.recordRequest ms name responseTime success now name =
      some (MetricsManager.recordRequestRecord m responseTime success now)
    ∧ (MetricsManager.recordRequestRecord m responseTime success now).errorCount ≤
        (MetricsManager.recordRequestRecord m responseTime success now).totalRequests
    ∧ (MetricsManager.recordRequestRecord m responseTime success now).successRate =
        1 - ((MetricsManager.recordRequestRecord m responseTime success now).errorCount : ℚ) /
          ((MetricsManager.recordRequestRecord m responseTime success now).totalRequests : ℚ)
    ∧ (MetricsManager.recordRequestRecord m responseTime success now).totalRequests =
        m.totalRequests + 1
    ∧ (MetricsManager.recordRequestRecord m responseTime success now).errorCount =
        m.errorCount + (if success then 0 else 1)
    ∧ MetricsManagerSrc.recordRequest ms name responseTime success now name =
        some (MetricsManagerSrc.recordRequestRecord m responseTime success now)
    ∧ (MetricsManagerSrc.recordRequestRecord m responseTime success now).errorCount ≤
        (MetricsManagerSrc.recordRequestRecord m responseTime success now).totalRequests
    ∧ (MetricsManagerSrc.recordRequestRecord m responseTime success now).successRate =
        1 - ((MetricsManagerSrc.recordRequestRecord m responseTime success now).errorCount : ℚ) /
          ((MetricsManagerSrc.recordRequestRecord m responseTime success now).totalRequests : ℚ)
    ∧ (MetricsManagerSrc.recordRequestRecord m responseTime success now).totalRequests =
        m.totalRequests + 1
    ∧ (MetricsManagerSrc.recordRequestRecord m responseTime success now).errorCount =
        m.errorCount + (if success then 0 else 1) := by
  refine ⟨?_, ?_, ?_, rfl, ?_, ?_, ?_, ?_, rfl, ?_⟩
  · simp [MetricsManager.recordRequest, hm, mapSet]
  · cases success <;> simp [MetricsManager.recordRequestRecord] <;> omega
  · cases success <;> simp [MetricsManager.recordRequestRecord]
  · cases success <;> simp [MetricsManager.recordRequestRecord]
  · simp [MetricsManagerSrc.recordRequest, hm, mapSet]
  · cases success <;> simp [MetricsManagerSrc.recordRequestRecord] <;> omega
  · cases success <;> simp [MetricsManagerSrc.recordRequestRecord]
  · cases success <;> simp [MetricsManagerSrc.recordRequestRecord]

/-- Witness for C6 at a concrete input: a failed request recorded against the
freshly initialized record of upstream `A`. -/
theorem claim_C6_witness :
    MetricsManager.recordRequest
      (mapSet emptyMetrics "A" (initialMetrics "A" 0)) "A" 100 false 50 "A" =
      some (MetricsManager.recordRequestRecord (initialMetrics "A" 0) 100 false 50)
    ∧ (MetricsManager.recordRequestRecord (initialMetrics "A" 0) 100 false 50).errorCount ≤
        (MetricsManager.recordRequestRecord (initialMetrics "A" 0) 100 false 50).totalRequests
    ∧ (MetricsManager.recordRequestRecord (initialMetrics "A" 0) 100 false 50).totalRequests =
        (initialMetrics "A" 0).totalRequests + 1 := by
  have h := claim_C6 (mapSet emptyMetrics "A" (initialMetrics "A" 0)) "A"
    (initialMetrics "A" 0) 100 false 50 (by decide) (by decide)
  exact ⟨h.1, h.2.1, h.2.2.2.1⟩

/-- C7: `markServerUnhealthy` and `markServerHealthy` flip only the health bit
of the named upstream's record — `errorCount`, `totalRequests`, `successRate`,
`responseTime`, `loadFactor`, `lastUsed` and `capabilityScore` are all
unchanged, and other upstreams' records are untouched — and the metrics-map
effect of every health check (periodic `checkServerHealth` and manual
`triggerHealthCheck` alike) is exactly one of these two operations. -/
theorem claim_C7 (ms : MetricsMap) (name : String) (errorMessage : Option String)
    (m : MCPServerMetrics) (hm : ms name = some m) :
    MetricsManager.markServerUnhealthy ms name errorMessage name =
      some { m with isHealthy := false }
    ∧ MetricsManager.markServerHealthy ms name name =
        some { m with isHealthy := true }
    ∧ (∀ n, n ≠ name →
        MetricsManager.markServerUnhealthy ms name errorMessage n = ms n
        ∧ MetricsManager.markServerHealthy ms name n = ms n)
    ∧ (∀ hs c now rt,
        (checkServerHealth hs ms c now rt).2 =
          MetricsManager.markServerHealthy ms c.name
        ∨ ∃ e, (checkServerHealth hs ms c now rt).2 =
            MetricsManager.markServerUnhealthy ms c.name e)
    ∧ (∀ hs c now rt,
        (triggerHealthCheck hs ms c now rt).2 =
          MetricsManager.markServerHealthy ms c.name
        ∨ ∃ e, (triggerHealthCheck hs ms c now rt).2 =
            MetricsManager.markServerUnhealthy ms c.name e) := by
  refine ⟨?_, ?_, ?_, ?_, ?_⟩
  · simp [MetricsManager.markServerUnhealthy, hm, mapSet]
  · simp [MetricsManager.markServerHealthy, hm, mapSet]
  · intro n hn
    constructor
    · simp [MetricsManager.markServerUnhealthy, hm, mapSet, hn]
    · simp [MetricsManager.markServerHealthy, hm, mapSet, hn]
  · intro hs c now rt
    by_cases hd : (checkServerHealthDecision c).1 <;>
      simp [checkServerHealth, hd]
  · intro hs c now rt
    by_cases hd : (triggerHealthCheckDecision c).1 <;>
      simp [triggerHealthCheck, hd]

/-- Witness for C7 at a concrete input: marking upstream `A` unhealthy leaves
all non-health fields of its record unchanged. -/
theorem claim_C7_witness :
    MetricsManager.markServerUnhealthy
      (mapSet emptyMetrics "A" (initialMetrics "A" 0)) "A" (some "boom") "A" =
      some { initialMetrics "A" 0 with isHealthy := false } :=
  (claim_C7 (mapSet emptyMetrics "A" (initialMetrics "A" 0)) "A" (some "boom")
    (initialMetrics "A" 0) (by decide)).1

/-- C8: the derived quality score satisfies
`performance = max(0, 1 - responseTime/5000)`,
`reliability = successRate` when healthy and 0 when unhealthy,
`load = 1 - loadFactor`, and
`overall = 0.30*performance + 0.30*reliability + 0.20*capability + 0.20*load`;
in particular an unhealthy record has reliability score 0. -/
theorem claim_C8 (m : MCPServerMetrics) :
    (MetricsManager.updateQualityScore m).performanceScore =
      max 0 (1 - m.responseTime / 5000)
    ∧ (MetricsManager.updateQualityScore m).reliabilityScore =
        (if m.isHealthy then m.successRate else 0)
    ∧ (MetricsManager.updateQualityScore m).loadScore = 1 - m.loadFactor
    ∧ (MetricsManager.updateQualityScore m).capabilityScore = m.capabilityScore
    ∧ (MetricsManager.updateQualityScore m).overallScore =
        (3 / 10) * (MetricsManager.updateQualityScore m).performanceScore +
        (3 / 10) * (MetricsManager.updateQualityScore m).reliabilityScore +
        (2 / 10) * (MetricsManager.updateQualityScore m).capabilityScore +
        (2 / 10) * (MetricsManager.updateQualityScore m).loadScore
    ∧ (m.isHealthy = false →
        (MetricsManager.updateQualityScore m).reliabilityScore = 0) := by
  refine ⟨rfl, rfl, rfl, rfl, ?_, ?_⟩
  · simp only [MetricsManager.updateQualityScore]
    ring
  · intro h
    simp [MetricsManager.updateQualityScore,
      MetricsManager.calculateReliabilityScore, h]

/-- Witness for C8 at a concrete input: an unhealthy record with nonzero
success rate still gets reliability score 0. -/
theorem claim_C8_witness :
    (MetricsManager.updateQualityScore
      { serverName := "A", responseTime := 100, successRate := 1 / 2,
        errorCount := 1, totalRequests := 2, lastUsed := 0, isHealthy := false,
        loadFactor := 1 / 4, capabilityScore := 1 }).reliabilityScore = 0 :=
  (claim_C8
    { serverName := "A", responseTime := 100, successRate := 1 / 2,
      errorCount := 1, totalRequests := 2, lastUsed := 0, isHealthy := false,
      loadFactor := 1 / 4, capabilityScore := 1 }).2.2.2.2.2 rfl

/-! ## Claim C9: health-check decision logic -/

/-- C9 counterexample: the claim says every health check marks a connected
upstream with non-empty `lastError` unhealthy, but the periodic check consults
`lastError` only for the client named `Example Server 3`, and the manual
trigger never consults it: a connected client `A` with
`lastError = "Connection lost"` is decided healthy by the periodic check, and
even `Example Server 3` with a non-empty `lastError` is decided healthy by the
manual trigger. -/
theorem claim_C9_counterexample :
    checkServerHealthDecision
      { name := "A", isConnected := true, lastError := some "Connection lost" } =
      (true, none)
    ∧ jsTruthy (some "Connection lost") = true
    ∧ triggerHealthCheckDecision
      { name := "Example Server 3", isConnected := true, lastError := some "boom" } =
      (true, none)
    ∧ jsTruthy (some "boom") = true := by
  decide

/-- C9 (amended): a disconnected upstream is decided unhealthy with the
captured `lastError` (defaulting to `Connection lost`) by both the periodic
check and the manual trigger; for a connected upstream the periodic check
consults `lastError` only when the client is named `Example Server 3` (the
configured SSE server), deciding every other connected client healthy, and the
manual trigger decides solely by `isConnected`; each check writes an
`MCPHealthCheck` record and calls `markServerHealthy`/`markServerUnhealthy` on
the metrics store according to its decision. -/
theorem claim_C9_amended (c : ConnectedClient) (hs : HealthChecks)
    (ms : MetricsMap) (now rt : Int) :
    (c.isConnected = false →
      checkServerHealthDecision c =
        (false, some (jsOrElse c.lastError "Connection lost"))
      ∧ triggerHealthCheckDecision c =
        (false, some (jsOrElse c.lastError "Connection lost")))
    ∧ (c.isConnected = true → c.name = "Example Server 3" →
        jsTruthy c.lastError = true →
        checkServerHealthDecision c = (false, c.lastError))
    ∧ (c.isConnected = true → c.name ≠ "Example Server 3" →
        checkServerHealthDecision c = (true, none))
    ∧ (c.isConnected = true → jsTruthy c.lastError = false →
        checkServerHealthDecision c = (true, none))
    ∧ (c.isConnected = true → triggerHealthCheckDecision c = (true, none))
    ∧ (checkServerHealth hs ms c now rt).1 c.name =
        some { serverName := c.name, isHealthy := (checkServerHealthDecision c).1,
               lastCheck := now, errorMessage := (checkServerHealthDecision c).2,
               responseTime := some rt }
    ∧ ((checkServerHealthDecision c).1 = true →
        (checkServerHealth hs ms c now rt).2 =
          MetricsManager.markServerHealthy ms c.name)
    ∧ ((checkServerHealthDecision c).1 = false →
        (checkServerHealth hs ms c now rt).2 =
          MetricsManager.markServerUnhealthy ms c.name
            (checkServerHealthDecision c).2)
    ∧ (triggerHealthCheck hs ms c now rt).1 c.name =
        some { serverName := c.name,
               isHealthy := (triggerHealthCheckDecision c).1,
               lastCheck := now,
               errorMessage := (triggerHealthCheckDecision c).2,
               responseTime := some rt }
    ∧ ((triggerHealthCheckDecision c).1 = true →
        (triggerHealthCheck hs ms c now rt).2 =
          MetricsManager.markServerHealthy ms c.name)
    ∧ ((triggerHealthCheckDecision c).1 = false →
        (triggerHealthCheck hs ms c now rt).2 =
          MetricsManager.markServerUnhealthy ms c.name
            (triggerHealthCheckDecision c).2) := by
  refine ⟨?_, ?_, ?_, ?_, ?_, ?_, ?_, ?_, ?_, ?_, ?_⟩
  · intro h
    constructor
    · simp [checkServerHealthDecision, h]
    · simp [triggerHealthCheckDecision, h]
  · intro h hname htruthy
    simp [checkServerHealthDecision, h, hname, htruthy]
  · intro h hname
    simp [checkServerHealthDecision, h, hname]
  · intro h htruthy
    by_cases hname : c.name = "Example Server 3" <;>
      simp [checkServerHealthDecision, h, hname, htruthy]
  · intro h
    simp [triggerHealthCheckDecision, h]
  · simp [checkServerHealth, hcSet]
  · intro hd
    simp [checkServerHealth, hd]
  · intro hd
    simp [checkServerHealth, hd]
  · simp [triggerHealthCheck, hcSet]
  · intro hd
    simp [triggerHealthCheck, hd]
  · intro hd
    simp [triggerHealthCheck, hd]

/-- Witness for C9 at a concrete input: a disconnected upstream is decided
unhealthy with its captured `lastError` by both checks. -/
theorem claim_C9_witness :
    checkServerHealthDecision
      { name := "B", isConnected := false, lastError := some "down" } =
      (false, some (jsOrElse (some "down") "Connection lost"))
    ∧ triggerHealthCheckDecision
      { name := "B", isConnected := false, lastError := some "down" } =
      (false, some (jsOrElse (some "down") "Connection lost")) :=
  (claim_C9_amended
    { name := "B", isConnected := false, lastError := some "down" }
    (fun _ => none) emptyMetrics 0 0).1 rfl

/-! ## Claim C10: recordRequest on a missing record (src/src variant) -/

/-- C10: when `recordRequest` of src/src/metrics-manager.ts is called for a
server with no existing record, it seeds the fresh `initializeServer` record
(`totalRequests = 0`, `errorCount = 0`, `successRate = 1`,
`responseTime = 0`, `isHealthy = true`) and returns: the elapsed time and
success flag of that first call are discarded (the result is independent of
them), and other servers' records are untouched. -/
theorem claim_C10 (ms : MetricsMap) (name : String) (rt rt' : ℚ) (s s' : Bool)
    (now : Int) (h : ms name = none) :
    MetricsManagerSrc.recordRequest ms name rt s now name =
      some (initialMetrics name now)
    ∧ (initialMetrics name now).totalRequests = 0
    ∧ (initialMetrics name now).errorCount = 0
    ∧ (initialMetrics name now).successRate = 1
    ∧ (initialMetrics name now).responseTime = 0
    ∧ (initialMetrics name now).isHealthy = true
    ∧ MetricsManagerSrc.recordRequest ms name rt s now =
        MetricsManagerSrc.recordRequest ms name rt' s' now
    ∧ (∀ n, n ≠ name → MetricsManagerSrc.recordRequest ms name rt s now n = ms n) := by
  refine ⟨?_, rfl, rfl, rfl, rfl, rfl, ?_, ?_⟩
  · simp [MetricsManagerSrc.recordRequest, h, mapSet]
  · simp [MetricsManagerSrc.recordRequest, h]
  · intro n hn
    simp [MetricsManagerSrc.recordRequest, h, mapSet, hn]

/-- Witness for C10 at a concrete input: the first `recordRequest` for an
unknown server `A` stores the initial record and discards the sample. -/
theorem claim_C10_witness :
    MetricsManagerSrc.recordRequest emptyMetrics "A" 5 true 9 "A" =
      some (initialMetrics "A" 9) :=
  (claim_C10 emptyMetrics "A" 5 7 true false 9 rfl).1

end MCPAgg
